import Mathlib

/-!
Verification development for the bounded real-time mirrored collection
pattern of the wallpaper-live repository (Vue 3 + Supabase client).

The repository's state layer is shallowly embedded: each Vue `ref` becomes a
field of an explicit state structure, each composable/store function becomes a
pure Lean function of that state, and every asynchronous Supabase call is
represented by an explicit outcome parameter (`OpResult`), since the remote
backend is an opaque external dependency.  JavaScript numbers are modelled as
rationals, JS arrays as `List`, and `localStorage` slots as `Option` fields of
the state.  Vue `watch` callbacks are inlined at the points where the watched
ref changes value.
-/

namespace WallpaperLive

/-- Outcome of one remote (Supabase) call, mirroring the `{ data, error }`
shape returned by the SDK: `ok` carries the data, `fail` the error-message
string surfaced on the rejection path. -/
inductive OpResult (α : Type) where
  | ok (a : α)
  | fail (reason : String)
deriving DecidableEq

/-- One `localStorage` slot's content after `JSON.parse`: either the stored
string fails to parse (`corrupt`, making `JSON.parse` throw) or it parses to a
value of the expected shape. An absent key is `Option.none` at the use site. -/
inductive StoredJson (α : Type) where
  | corrupt
  | parsed (a : α)
deriving DecidableEq

namespace UseChat

/-- `ChatMessage` interface of `src/composables/useChat.ts` (the joined
`user` display object is dropped: identity, ordering and mutation use only
these fields). -/
structure ChatMessage where
  id : String
  user_id : String
  content : String
  created_at : String
deriving DecidableEq

/-- JavaScript `Array.prototype.slice` called with a single negative argument
`-n` (as in `messages.value.slice(-n)`): for `n > 0` it keeps the last `n`
elements; for `n = 0` JS evaluates `slice(-0)` as `slice(0)`, which returns
the whole array. -/
def jsSliceNeg (n : Nat) (l : List α) : List α :=
  if n = 0 then l else l.drop (l.length - n)

/-- The realtime `INSERT` callback installed by `subscribeToChat`
(`useChat.ts`): after the per-id refetch succeeds it runs
`messages.value.push(data)` and then, if `messages.value.length > 100`,
`messages.value = messages.value.slice(-100)`.  There is no check whether
`data.id` is already present in the list. -/
def handleChatInsert (msgs : List ChatMessage) (m : ChatMessage) : List ChatMessage :=
  let pushed := msgs ++ [m]
  if 100 < pushed.length then jsSliceNeg 100 pushed else pushed

/-- State of the `useChat` composable: the refs `messages`, `loading`,
`error`, `sending`, `connected`, the module-local `channel` handle, plus the
supabase client's channel registrations for this category (`registrations`,
with `nextChannelId` a supply of fresh handles), which model
`supabase.channel(...)` / `supabase.removeChannel(...)`. -/
structure ChatState where
  messages : List ChatMessage
  loading : Bool
  error : Option String
  sending : Bool
  connected : Bool
  channel : Option Nat
  registrations : List Nat
  nextChannelId : Nat
deriving DecidableEq

/-- `fetchMessages` of `useChat.ts`: sets `loading`, clears `error`, runs the
select (its outcome is the parameter); on success the mirrored list is
replaced by the fetched page reversed to oldest-first, on failure the list is
untouched and the message recorded; `finally` clears `loading`. -/
def fetchMessages (s : ChatState) (outcome : OpResult (List ChatMessage)) :
    ChatState × OpResult (List ChatMessage) :=
  match outcome with
  | .ok data => ({ s with messages := data.reverse, loading := false, error := none }, .ok data)
  | .fail r => ({ s with loading := false, error := some r }, .fail r)

/-- `sendMessage` of `useChat.ts`.  `content` is modelled as the already
trimmed text (the source tests `!content.trim()` and inserts
`content.trim()`).  The authenticated principal and the insert outcome are
parameters.  The mirrored list is never touched here: the confirmed record
arrives through the realtime path. -/
def sendMessage (s : ChatState) (user : Option String) (content : String)
    (outcome : OpResult ChatMessage) : ChatState × OpResult ChatMessage :=
  if content = "" then (s, .fail "Message cannot be empty")
  else
    match user with
    | none =>
        ({ s with sending := false, error := some "User must be authenticated to send messages" },
         .fail "User must be authenticated to send messages")
    | some _ =>
        match outcome with
        | .ok m => ({ s with sending := false, error := none }, .ok m)
        | .fail r => ({ s with sending := false, error := some r }, .fail r)

/-- `subscribeToChat` of `useChat.ts`: `if (channel) return` guards the whole
body, otherwise a fresh channel is created and registered with the client.
(`connected` is only set later by the asynchronous status callback.) -/
def subscribeToChat (s : ChatState) : ChatState :=
  if s.channel.isSome then s
  else
    { s with
      channel := some s.nextChannelId
      registrations := s.registrations ++ [s.nextChannelId]
      nextChannelId := s.nextChannelId + 1 }

/-- `unsubscribeFromChat` of `useChat.ts`: when a channel is held it is
removed from the client, the local handle nulled and `connected` cleared;
otherwise nothing happens. -/
def unsubscribeFromChat (s : ChatState) : ChatState :=
  match s.channel with
  | none => s
  | some c =>
      { s with
        channel := none
        connected := false
        registrations := s.registrations.filter (fun x => x != c) }

/-- The subscription-lifecycle invariant: the client holds exactly the
registration named by the local handle (none when the handle is null).  It
holds of the initial state (`channel = none`, no registrations). -/
def ChannelInv (s : ChatState) : Prop :=
  s.registrations = s.channel.elim [] (fun c => [c])

end UseChat

namespace ChatStore

open UseChat

/-- `ChatSettings` interface of the chat store. -/
structure ChatSettings where
  showTimestamps : Bool
  maxMessages : Nat
  autoScroll : Bool
  soundEnabled : Bool
  showOnlineUsers : Bool
deriving DecidableEq

/-- The literal defaults of the chat store's `settings` ref. -/
def defaultChatSettings : ChatSettings :=
  { showTimestamps := true, maxMessages := 100, autoScroll := true
    soundEnabled := true, showOnlineUsers := true }

/-- The `watch` on `chatComposable.messages` in the chat store: copies the
composable's list into the store and, when its length exceeds
`settings.maxMessages`, truncates with `slice(-settings.maxMessages)`. -/
def syncMessages (maxMessages : Nat) (newMessages : List ChatMessage) : List ChatMessage :=
  if maxMessages < newMessages.length then jsSliceNeg maxMessages newMessages else newMessages

/-- Persistence-relevant slice of the chat store: the `settings` ref and the
`localStorage` slot under key `chatSettings` (`none` = key absent). -/
structure ChatStoreState where
  settings : ChatSettings
  storedSettings : Option (StoredJson ChatSettings)
deriving DecidableEq

/-- The store state at startup: default settings, nothing persisted yet. -/
def initChatStore : ChatStoreState :=
  { settings := defaultChatSettings, storedSettings := none }

/-- `saveSettings` of the chat store: `localStorage.setItem('chatSettings',
JSON.stringify(settings.value))`. -/
def saveSettings (s : ChatStoreState) : ChatStoreState :=
  { s with storedSettings := some (.parsed s.settings) }

/-- `loadSettings` of the chat store: absent key leaves the settings alone;
a parse failure is caught (logged only); a parsed object is spread over the
current settings — the saved object always carries every field, so the merge
replaces the settings wholesale. -/
def loadSettings (s : ChatStoreState) : ChatStoreState :=
  match s.storedSettings with
  | none => s
  | some .corrupt => s
  | some (.parsed saved) => { s with settings := saved }

end ChatStore

namespace UseMusic

/-- `MusicTrack` interface of `src/composables/useMusic.ts` (the joined
`uploader` display object is dropped; `duration` is irrelevant to the claims
and omitted). -/
structure MusicTrack where
  id : String
  title : String
  artist : Option String
  file_url : String
  uploader_id : String
  created_at : String
deriving DecidableEq

/-- The `HTMLAudioElement` held in the module-local `audioElement`:
the fields the composable reads or writes. -/
structure AudioElement where
  src : String
  currentTime : ℚ
  volume : ℚ
  paused : Bool
  muted : Bool
deriving DecidableEq

/-- State of the `useMusic` composable: its refs plus the optional audio
element (`none` before `initAudio` first runs). -/
structure MusicState where
  tracks : List MusicTrack
  currentTrack : Option MusicTrack
  isPlaying : Bool
  isPaused : Bool
  volume : ℚ
  currentTime : ℚ
  duration : ℚ
  loading : Bool
  error : Option String
  uploading : Bool
  audio : Option AudioElement
deriving DecidableEq

/-- `initAudio`: returns the existing element or a fresh `new Audio()` whose
volume is initialised from the `volume` ref. -/
def initAudio (s : MusicState) : AudioElement :=
  s.audio.getD { src := "", currentTime := 0, volume := s.volume, paused := true, muted := false }

/-- `fetchTracks`: replaces the mirrored list on success, preserves it and
records the message on failure; `finally` clears `loading` on both paths. -/
def fetchTracks (s : MusicState) (outcome : OpResult (List MusicTrack)) :
    MusicState × OpResult (List MusicTrack) :=
  match outcome with
  | .ok data => ({ s with tracks := data, loading := false, error := none }, .ok data)
  | .fail r => ({ s with loading := false, error := some r }, .fail r)

/-- `uploadTrack`: guards (auth, `file.type.startsWith('audio/')` — the
latter is the observation `isAudioFile` of the external `File`), then the
storage upload and the database insert (outcome parameters).  Only after
every step succeeds is the returned record unshifted onto the mirrored
list. -/
def uploadTrack (s : MusicState) (user : Option String) (isAudioFile : Bool)
    (storageUpload : OpResult Unit) (dbInsert : OpResult MusicTrack) :
    MusicState × OpResult MusicTrack :=
  match user with
  | none =>
      ({ s with uploading := false, error := some "User must be authenticated to upload" },
       .fail "User must be authenticated to upload")
  | some _ =>
      if isAudioFile then
        match storageUpload with
        | .fail r => ({ s with uploading := false, error := some r }, .fail r)
        | .ok _ =>
            match dbInsert with
            | .fail r => ({ s with uploading := false, error := some r }, .fail r)
            | .ok td =>
                ({ s with tracks := td :: s.tracks, uploading := false, error := none }, .ok td)
      else
        ({ s with uploading := false, error := some "File must be an audio file" },
         .fail "File must be an audio file")

/-- `playTrack`: when the requested track differs from the current one the
source is replaced and the position reset to zero; a same-id replay skips all
of that.  `playOk` is the outcome of `await audio.play()`; the preceding
assignments persist even when it rejects (the `catch` only records the error
and clears `isPlaying`). -/
def playTrack (s : MusicState) (track : MusicTrack) (playOk : Bool) : MusicState :=
  let a := initAudio s
  let s1 :=
    if s.currentTrack.map MusicTrack.id = some track.id then
      { s with audio := some a }
    else
      { s with
        audio := some { a with src := track.file_url }
        currentTrack := some track
        currentTime := 0 }
  if playOk then
    { s1 with
      audio := s1.audio.map (fun x => { x with paused := false })
      isPlaying := true, isPaused := false, error := none }
  else
    { s1 with error := some "Failed to play track", isPlaying := false }

/-- `pauseTrack`: pauses the element when one exists; the `pause` event
listener then sets the flags. -/
def pauseTrack (s : MusicState) : MusicState :=
  match s.audio with
  | none => s
  | some a =>
      { s with audio := some { a with paused := true }, isPlaying := false, isPaused := true }

/-- `resumeTrack`: replays only when an element exists and `isPaused` holds;
on rejection of `play()` the error is recorded. -/
def resumeTrack (s : MusicState) (playOk : Bool) : MusicState :=
  match s.audio with
  | none => s
  | some a =>
      if s.isPaused then
        if playOk then
          { s with audio := some { a with paused := false },
                   isPlaying := true, isPaused := false, error := none }
        else { s with error := some "Failed to resume track" }
      else s

/-- `stopTrack` of the composable (`useMusic.ts`): pauses the element, resets
its position and the `currentTime` ref to zero and clears both flags.  Note
that the composable's `currentTrack` ref is NOT cleared here. -/
def stopTrack (s : MusicState) : MusicState :=
  match s.audio with
  | none => s
  | some a =>
      { s with
        audio := some { a with paused := true, currentTime := 0 }
        isPlaying := false, isPaused := false, currentTime := 0 }

/-- `restartTrack`: when an element and a current track exist, rewinds the
element and, when not already playing, replays the current track through
`playTrack`. -/
def restartTrack (s : MusicState) (playOk : Bool) : MusicState :=
  match s.audio, s.currentTrack with
  | some a, some t =>
      let s1 := { s with audio := some { a with currentTime := 0 } }
      if s1.isPlaying then s1 else playTrack s1 t playOk
  | _, _ => s

/-- The clamp used by `setVolume`: `Math.max(0, Math.min(1, v))`. -/
def clamp01 (v : ℚ) : ℚ := max 0 (min 1 v)

/-- `setVolume`: stores the clamped volume and mirrors it onto the element
when one exists. -/
def setVolume (s : MusicState) (v : ℚ) : MusicState :=
  { s with
    volume := clamp01 v
    audio := s.audio.map (fun a => { a with volume := clamp01 v }) }

/-- `seekTo`: `audioElement.currentTime = Math.max(0, Math.min(duration.value,
time))`; a no-op before any element exists. -/
def seekTo (s : MusicState) (time : ℚ) : MusicState :=
  match s.audio with
  | none => s
  | some a => { s with audio := some { a with currentTime := max 0 (min s.duration time) } }

/-- `deleteTrack`: auth guard, then the ownership-constrained select
(`.eq('id', trackId).eq('uploader_id', user.id).single()`, which rejects when
no owned row matches — the PostgREST zero-rows message), then the storage
removal and the constrained database delete (outcome parameters); only full
success filters the mirrored list.  A currently playing copy of the track is
stopped once the ownership check has passed. -/
def deleteTrack (s : MusicState) (db : List MusicTrack) (user : Option String)
    (trackId : String) (storageRemove : OpResult Unit) (dbDelete : OpResult Unit) :
    MusicState × OpResult Unit :=
  match user with
  | none =>
      ({ s with loading := false, error := some "User must be authenticated" },
       .fail "User must be authenticated")
  | some uid =>
      match db.find? (fun t => t.id == trackId && t.uploader_id == uid) with
      | none =>
          ({ s with loading := false,
                    error := some "JSON object requested, multiple (or no) rows returned" },
           .fail "JSON object requested, multiple (or no) rows returned")
      | some _ =>
          let s1 :=
            if s.currentTrack.map MusicTrack.id = some trackId then
              { stopTrack s with currentTrack := none }
            else s
          match storageRemove with
          | .fail r => ({ s1 with loading := false, error := some r }, .fail r)
          | .ok _ =>
              match dbDelete with
              | .fail r => ({ s1 with loading := false, error := some r }, .fail r)
              | .ok _ =>
                  ({ s1 with
                      tracks := s1.tracks.filter (fun t => t.id != trackId)
                      loading := false, error := none },
                   .ok ())

end UseMusic

namespace UseWallpaper

/-- `Wallpaper` interface of `src/composables/useWallpaper.ts` (joined
`uploader` display object dropped). -/
structure Wallpaper where
  id : String
  title : String
  file_url : String
  uploader_id : String
  tags : List String
  created_at : String
deriving DecidableEq

/-- State of the `useWallpaper` composable. -/
structure WallpaperState where
  wallpapers : List Wallpaper
  currentWallpaper : Option Wallpaper
  loading : Bool
  error : Option String
  uploading : Bool
deriving DecidableEq

/-- `fetchWallpapers`: same shape as `fetchTracks`. -/
def fetchWallpapers (s : WallpaperState) (outcome : OpResult (List Wallpaper)) :
    WallpaperState × OpResult (List Wallpaper) :=
  match outcome with
  | .ok data => ({ s with wallpapers := data, loading := false, error := none }, .ok data)
  | .fail r => ({ s with loading := false, error := some r }, .fail r)

/-- `uploadWallpaper`: auth guard (no file-type validation exists for
wallpapers), storage upload, database insert; only full success unshifts the
returned record. -/
def uploadWallpaper (s : WallpaperState) (user : Option String)
    (storageUpload : OpResult Unit) (dbInsert : OpResult Wallpaper) :
    WallpaperState × OpResult Wallpaper :=
  match user with
  | none =>
      ({ s with uploading := false, error := some "User must be authenticated to upload" },
       .fail "User must be authenticated to upload")
  | some _ =>
      match storageUpload with
      | .fail r => ({ s with uploading := false, error := some r }, .fail r)
      | .ok _ =>
          match dbInsert with
          | .fail r => ({ s with uploading := false, error := some r }, .fail r)
          | .ok wd =>
              ({ s with wallpapers := wd :: s.wallpapers, uploading := false, error := none },
               .ok wd)

/-- `deleteWallpaper`: same ownership-constrained pattern as `deleteTrack`;
on full success the record is filtered out and a matching current selection
cleared. -/
def deleteWallpaper (s : WallpaperState) (db : List Wallpaper) (user : Option String)
    (wallpaperId : String) (storageRemove : OpResult Unit) (dbDelete : OpResult Unit) :
    WallpaperState × OpResult Unit :=
  match user with
  | none =>
      ({ s with loading := false, error := some "User must be authenticated" },
       .fail "User must be authenticated")
  | some uid =>
      match db.find? (fun w => w.id == wallpaperId && w.uploader_id == uid) with
      | none =>
          ({ s with loading := false,
                    error := some "JSON object requested, multiple (or no) rows returned" },
           .fail "JSON object requested, multiple (or no) rows returned")
      | some _ =>
          match storageRemove with
          | .fail r => ({ s with loading := false, error := some r }, .fail r)
          | .ok _ =>
              match dbDelete with
              | .fail r => ({ s with loading := false, error := some r }, .fail r)
              | .ok _ =>
                  ({ s with
                      wallpapers := s.wallpapers.filter (fun w => w.id != wallpaperId)
                      currentWallpaper :=
                        if s.currentWallpaper.map Wallpaper.id = some wallpaperId then none
                        else s.currentWallpaper
                      loading := false, error := none },
                   .ok ())

end UseWallpaper

namespace UserStore

/-- `UserProfile` interface of `src/stores/userStore.ts`. -/
structure UserProfile where
  id : String
  username : String
  email : Option String
  avatar_url : Option String
deriving DecidableEq

/-- `UserPreferences` interface of `src/stores/userStore.ts`. -/
structure UserPreferences where
  user_id : String
  wallpaper_id : Option String
  music_url : Option String
  volume : ℚ
  theme : Option String
  auto_play_music : Bool
  show_chat : Bool
deriving DecidableEq

/-- How a call finishes from the caller's point of view: a discriminated
success, a discriminated failure (the `{ success: false, error }` return), or
an exception that escapes to the caller. -/
inductive CallOutcome (α : Type) where
  | ok (a : α)
  | fail (reason : String)
  | thrown (message : String)
deriving DecidableEq

/-- `updateProfile` of the user store: `if (!user.value) throw new
Error('User not authenticated')` sits BEFORE the `try` block, so with no
authenticated user the exception escapes to the caller; inside the `try` a
database failure is converted to a `{ success: false, error }` result. -/
def updateProfile (user : Option String) (profile : Option UserProfile)
    (dbUpdate : OpResult UserProfile) : Option UserProfile × CallOutcome UserProfile :=
  match user with
  | none => (profile, .thrown "User not authenticated")
  | some _ =>
      match dbUpdate with
      | .ok d => (some d, .ok d)
      | .fail r => (profile, .fail r)

/-- `updatePreferences` of the user store: same unauthenticated `throw`
before the `try`; the upsert outcome is a parameter. -/
def updatePreferences (user : Option String) (prefs : Option UserPreferences)
    (dbUpsert : OpResult UserPreferences) :
    Option UserPreferences × CallOutcome UserPreferences :=
  match user with
  | none => (prefs, .thrown "User not authenticated")
  | some _ =>
      match dbUpsert with
      | .ok d => (some d, .ok d)
      | .fail r => (prefs, .fail r)

end UserStore

namespace MusicStore

open UseMusic

/-- The shape `saveSettings` of the music store persists under key
`musicSettings`; on load each field falls back through `??` when missing,
hence the `Option`s. -/
structure StoredMusicSettings where
  volume : Option ℚ
  playMode : Option String
  autoPlay : Option Bool
deriving DecidableEq

/-- Slice of the music store (`useMusicStore`) relevant to settings
persistence and the stop/restart/resume lifecycle: the store-level refs, the
wrapped composable state, and the `localStorage` slots `musicSettings` and
`currentTrack`. -/
structure MusicStoreState where
  comp : MusicState
  currentTrack : Option MusicTrack
  volume : ℚ
  playMode : String
  autoPlay : Bool
  storedSettings : Option (StoredJson StoredMusicSettings)
  storedCurrentTrack : Option MusicTrack
deriving DecidableEq

/-- `saveSettings` of the music store: serializes `volume`, `playMode` and
`autoPlay` into the `musicSettings` slot. -/
def saveSettings (s : MusicStoreState) : MusicStoreState :=
  { s with
    storedSettings :=
      some (.parsed { volume := some s.volume, playMode := some s.playMode
                      autoPlay := some s.autoPlay }) }

/-- `loadSettings` of the music store: absent key does nothing; a parse
failure is caught (logged only); a parsed object restores each field with the
documented default behind `??`, then pushes the volume into the composable
via its clamping `setVolume`. -/
def loadSettings (s : MusicStoreState) : MusicStoreState :=
  match s.storedSettings with
  | none => s
  | some .corrupt => s
  | some (.parsed st) =>
      let v := st.volume.getD (7/10)
      { s with
        volume := v
        playMode := st.playMode.getD "single"
        autoPlay := st.autoPlay.getD false
        comp := UseMusic.setVolume s.comp v }

/-- The music store at startup: the refs' literal initial values, nothing
persisted yet, composable in its own initial state. -/
def initMusicStore : MusicStoreState :=
  { comp :=
      { tracks := [], currentTrack := none, isPlaying := false, isPaused := false
        volume := 7/10, currentTime := 0, duration := 0, loading := false
        error := none, uploading := false, audio := none }
    currentTrack := none
    volume := 7/10
    playMode := "single"
    autoPlay := false
    storedSettings := none
    storedCurrentTrack := none }

/-- `stopTrack` of the music store: forwards to the composable's `stopTrack`,
then clears the store-level `currentTrack` ref and removes the persisted
`currentTrack` key.  The composable's own `currentTrack` ref is untouched,
and since it did not change the `watch` syncing it into the store does not
fire. -/
def stopTrack (s : MusicStoreState) : MusicStoreState :=
  { s with
    comp := UseMusic.stopTrack s.comp
    currentTrack := none
    storedCurrentTrack := none }

/-- `restartTrack` of the music store: forwards to the composable; the
conditional reassignment models the `watch` on the composable's
`currentTrack`, which fires only when that ref's value changes. -/
def restartTrack (s : MusicStoreState) (playOk : Bool) : MusicStoreState :=
  let c := UseMusic.restartTrack s.comp playOk
  { s with
    comp := c
    currentTrack := if c.currentTrack = s.comp.currentTrack then s.currentTrack else c.currentTrack }

/-- `resumeTrack` of the music store: forwards to the composable, with the
same `watch` modelling as `restartTrack`. -/
def resumeTrack (s : MusicStoreState) (playOk : Bool) : MusicStoreState :=
  let c := UseMusic.resumeTrack s.comp playOk
  { s with
    comp := c
    currentTrack := if c.currentTrack = s.comp.currentTrack then s.currentTrack else c.currentTrack }

end MusicStore

section ChatLemmas

open UseChat ChatStore

/-- Concrete chat records for witnesses and counterexamples. -/
def msgA : ChatMessage :=
  { id := "m1", user_id := "u1", content := "hello", created_at := "2024-01-01T00:00:00Z" }

/-- A second concrete chat record, with a distinct id. -/
def msgB : ChatMessage :=
  { id := "m2", user_id := "u2", content := "hey", created_at := "2024-01-01T00:00:05Z" }

/-- Below the hard bound the realtime handler is a plain append. -/
theorem handleChatInsert_eq_append (msgs : List ChatMessage) (m : ChatMessage)
    (h : msgs.length < 100) : handleChatInsert msgs m = msgs ++ [m] := by
  unfold handleChatInsert
  rw [if_neg]
  simp only [List.length_append, List.length_cons, List.length_nil, not_lt]
  omega

/-- The size after one realtime insertion is exactly `min (n + 1) 100`. -/
theorem handleChatInsert_length (msgs : List ChatMessage) (m : ChatMessage) :
    (handleChatInsert msgs m).length = min (msgs.length + 1) 100 := by
  unfold handleChatInsert jsSliceNeg
  by_cases h : 100 < (msgs ++ [m]).length
  · rw [if_pos h, if_neg (by omega)]
    simp only [List.length_drop, List.length_append, List.length_cons, List.length_nil] at h ⊢
    omega
  · rw [if_neg h]
    simp only [List.length_append, List.length_cons, List.length_nil, not_lt] at h ⊢
    omega

/-- The realtime handler never leaves more than 100 records. -/
theorem handleChatInsert_length_le (msgs : List ChatMessage) (m : ChatMessage) :
    (handleChatInsert msgs m).length ≤ 100 := by
  rw [handleChatInsert_length]
  omega

/-- Folding any push sequence over a state within the bound stays within the
bound. -/
theorem foldl_handleChatInsert_le (pushes : List ChatMessage) (msgs : List ChatMessage)
    (h : msgs.length ≤ 100) : (pushes.foldl handleChatInsert msgs).length ≤ 100 := by
  induction pushes generalizing msgs with
  | nil => simpa using h
  | cons p rest ih =>
      simp only [List.foldl_cons]
      exact ih (handleChatInsert msgs p) (handleChatInsert_length_le msgs p)

end ChatLemmas

/-- Claim C1 — counterexample.  Delivering `msgA` through the realtime
handler while a record with the same id is already mirrored does not leave
the store unchanged: the handler pushes a second copy, so the store ends with
two records sharing one id. -/
theorem C1_duplicate_delivery_counterexample :
    UseChat.handleChatInsert [msgA] msgA = [msgA, msgA] ∧
    (UseChat.handleChatInsert [msgA] msgA).length = 2 ∧
    ¬ UseChat.handleChatInsert [msgA] msgA = [msgA] := by
  refine ⟨rfl, rfl, ?_⟩
  decide

/-- Claim C1 — amended.  The realtime INSERT handler installed by
`subscribeToChat` performs no de-duplication: pushing a record whose id is
already present (below the eviction bound) is a plain append that grows the
store by one and strictly increases the number of records carrying that id to
at least two, so a record delivered both by `fetchMessages` and by the push
path ends up mirrored twice. -/
theorem C1_push_appends_without_dedup (msgs : List UseChat.ChatMessage)
    (m : UseChat.ChatMessage) (hlen : msgs.length < 100)
    (hmem : ∃ m₀ ∈ msgs, m₀.id = m.id) :
    UseChat.handleChatInsert msgs m = msgs ++ [m] ∧
    (UseChat.handleChatInsert msgs m).length = msgs.length + 1 ∧
    2 ≤ ((UseChat.handleChatInsert msgs m).filter (fun x => x.id == m.id)).length := by
  refine ⟨handleChatInsert_eq_append msgs m hlen, ?_, ?_⟩
  · rw [handleChatInsert_eq_append msgs m hlen]
    simp
  · rw [handleChatInsert_eq_append msgs m hlen]
    obtain ⟨m₀, hm₀, hid⟩ := hmem
    have h₀ : m₀ ∈ msgs.filter (fun x => x.id == m.id) := by
      simp only [List.mem_filter, beq_iff_eq]
      exact ⟨hm₀, hid⟩
    have hpos : 0 < (msgs.filter (fun x => x.id == m.id)).length :=
      List.length_pos.mpr (List.ne_nil_of_mem h₀)
    simp only [List.filter_append, List.length_append, List.filter_cons, List.filter_nil,
      beq_self_eq_true, if_true, List.length_cons, List.length_nil]
    omega

/-- Claim C1 — witness for the amended theorem at a concrete input. -/
theorem C1_push_appends_without_dedup_witness :
    UseChat.handleChatInsert [msgA] msgA = [msgA] ++ [msgA] ∧
    (UseChat.handleChatInsert [msgA] msgA).length = [msgA].length + 1 ∧
    2 ≤ ((UseChat.handleChatInsert [msgA] msgA).filter (fun x => x.id == msgA.id)).length :=
  C1_push_appends_without_dedup [msgA] msgA (by decide) ⟨msgA, by decide, rfl⟩

/-- Claim C2 — counterexample.  With `settings.maxMessages` configured to 0
the store's sync watcher evaluates `slice(-0)`, which JavaScript treats as
`slice(0)` and keeps everything: after the insertion is mirrored, the store
holds one message, exceeding the configured maximum of 0. -/
theorem C2_zero_max_counterexample :
    (ChatStore.syncMessages 0 [msgA]).length = 1 ∧
    ¬ (ChatStore.syncMessages 0 [msgA]).length ≤ 0 := by
  exact ⟨rfl, by decide⟩

/-- Claim C2 — amended.  For a positive configured maximum the bounds hold as
claimed: one realtime insertion leaves exactly `min (n+1) 100` records and,
at the bound (100 mirrored messages), discards exactly the oldest-inserted
record (the list head) while keeping the new one last; the store's sync
watcher keeps at most `maxMessages` records and, when it evicts, drops
exactly the oldest-inserted prefix; and after any nonempty sequence of
realtime insertions the composable's store never exceeds 100. -/
theorem C2_eviction_bound (msgs : List UseChat.ChatMessage) (m : UseChat.ChatMessage)
    (maxMessages : Nat) (pushes : List UseChat.ChatMessage)
    (hmax : 0 < maxMessages) (hpushes : pushes ≠ []) :
    (UseChat.handleChatInsert msgs m).length = min (msgs.length + 1) 100 ∧
    (msgs.length = 100 → UseChat.handleChatInsert msgs m = msgs.drop 1 ++ [m]) ∧
    (ChatStore.syncMessages maxMessages msgs).length ≤ maxMessages ∧
    (maxMessages < msgs.length →
      ChatStore.syncMessages maxMessages msgs = msgs.drop (msgs.length - maxMessages)) ∧
    (pushes.foldl UseChat.handleChatInsert msgs).length ≤ 100 := by
  refine ⟨handleChatInsert_length msgs m, ?_, ?_, ?_, ?_⟩
  · intro h100
    unfold UseChat.handleChatInsert UseChat.jsSliceNeg
    rw [if_pos (by simp [h100]), if_neg (by omega)]
    rw [List.drop_append_eq_append_drop]
    simp [h100]
  · unfold ChatStore.syncMessages UseChat.jsSliceNeg
    by_cases h : maxMessages < msgs.length
    · rw [if_pos h, if_neg (by omega)]
      simp only [List.length_drop]
      omega
    · rw [if_neg h]
      omega
  · intro h
    unfold ChatStore.syncMessages UseChat.jsSliceNeg
    rw [if_pos h, if_neg (by omega)]
  · cases pushes with
    | nil => exact absurd rfl hpushes
    | cons p rest =>
        simp only [List.foldl_cons]
        exact foldl_handleChatInsert_le rest _ (handleChatInsert_length_le msgs p)

section MutationLemmas

open UseMusic UseWallpaper UseChat

/-- The composable's `stopTrack` never touches the mirrored track list. -/
theorem stopTrack_tracks (s : MusicState) : (UseMusic.stopTrack s).tracks = s.tracks := by
  cases h : s.audio <;> simp [UseMusic.stopTrack, h]

/-- A failing `uploadTrack` leaves the mirrored track list unchanged. -/
theorem uploadTrack_fail_tracks {s : MusicState} {u : Option String} {isAudio : Bool}
    {st : OpResult Unit} {db : OpResult MusicTrack} {r : String}
    (h : (uploadTrack s u isAudio st db).2 = OpResult.fail r) :
    (uploadTrack s u isAudio st db).1.tracks = s.tracks := by
  cases u with
  | none => simp [uploadTrack]
  | some u => cases isAudio <;> cases st <;> cases db <;> simp_all [uploadTrack]

/-- A failing `deleteTrack` leaves the mirrored track list unchanged. -/
theorem deleteTrack_fail_tracks {s : MusicState} {db : List MusicTrack} {u : Option String}
    {tid : String} {sr sd : OpResult Unit} {r : String}
    (h : (deleteTrack s db u tid sr sd).2 = OpResult.fail r) :
    (deleteTrack s db u tid sr sd).1.tracks = s.tracks := by
  cases u with
  | none => simp [deleteTrack]
  | some uid =>
      cases hf : db.find? (fun t => t.id == tid && t.uploader_id == uid) with
      | none => simp [deleteTrack, hf]
      | some tr =>
          cases sr <;> cases sd <;>
            simp_all [deleteTrack, hf] <;> split_ifs <;> simp [stopTrack_tracks]

/-- `sendMessage` never touches the mirrored message list (the confirmed
record only ever arrives through the realtime path). -/
theorem sendMessage_messages (s : ChatState) (u : Option String) (content : String)
    (o : OpResult ChatMessage) : (sendMessage s u content o).1.messages = s.messages := by
  unfold sendMessage
  split_ifs
  · rfl
  · cases u with
    | none => rfl
    | some _ => cases o <;> rfl

/-- A failing `uploadWallpaper` leaves the mirrored wallpaper list
unchanged. -/
theorem uploadWallpaper_fail_wallpapers {s : WallpaperState} {u : Option String}
    {st : OpResult Unit} {db : OpResult Wallpaper} {r : String}
    (h : (uploadWallpaper s u st db).2 = OpResult.fail r) :
    (uploadWallpaper s u st db).1.wallpapers = s.wallpapers := by
  cases u with
  | none => simp [uploadWallpaper]
  | some u => cases st <;> cases db <;> simp_all [uploadWallpaper]

/-- A failing `deleteWallpaper` leaves the mirrored wallpaper list
unchanged. -/
theorem deleteWallpaper_fail_wallpapers {s : WallpaperState} {db : List Wallpaper}
    {u : Option String} {wid : String} {sr sd : OpResult Unit} {r : String}
    (h : (deleteWallpaper s db u wid sr sd).2 = OpResult.fail r) :
    (deleteWallpaper s db u wid sr sd).1.wallpapers = s.wallpapers := by
  cases u with
  | none => simp [deleteWallpaper]
  | some uid =>
      cases hf : db.find? (fun w => w.id == wid && w.uploader_id == uid) with
      | none => simp [deleteWallpaper, hf]
      | some w => cases sr <;> cases sd <;> simp_all [deleteWallpaper, hf]

/-- When no row is both id-matched and owned by the principal, the
ownership-constrained lookup of `deleteTrack` comes back empty. -/
theorem find?_owned_eq_none (db : List MusicTrack) (tid uid : String)
    (h : ∀ t ∈ db, ¬ (t.id = tid ∧ t.uploader_id = uid)) :
    db.find? (fun t => t.id == tid && t.uploader_id == uid) = none := by
  rw [List.find?_eq_none]
  intro t ht
  simp only [Bool.and_eq_true, beq_iff_eq]
  exact h t ht

end MutationLemmas

/-- A concrete track owned by principal `u1`. -/
def trackA : UseMusic.MusicTrack :=
  { id := "t1", title := "Song", artist := some "Artist", file_url := "https://cdn/x/a.mp3"
    uploader_id := "u1", created_at := "2024-01-02T00:00:00Z" }

/-- A concrete track owned by a different principal, `other`. -/
def trackB : UseMusic.MusicTrack :=
  { id := "t9", title := "Tune", artist := none, file_url := "https://cdn/o/b.mp3"
    uploader_id := "other", created_at := "2024-01-03T00:00:00Z" }

/-- A concrete wallpaper. -/
def wallA : UseWallpaper.Wallpaper :=
  { id := "w1", title := "Sunset", file_url := "https://cdn/x/w.jpg", uploader_id := "u1"
    tags := ["nature"], created_at := "2024-01-04T00:00:00Z" }

/-- A concrete `useMusic` composable state holding one mirrored track. -/
def musicStateW : UseMusic.MusicState :=
  { tracks := [trackA], currentTrack := none, isPlaying := false, isPaused := false
    volume := 1, currentTime := 0, duration := 0, loading := false, error := none
    uploading := false, audio := none }

/-- A concrete `useWallpaper` composable state holding one mirrored
wallpaper. -/
def wallpaperStateW : UseWallpaper.WallpaperState :=
  { wallpapers := [wallA], currentWallpaper := none, loading := false, error := none
    uploading := false }

/-- A concrete `useChat` composable state before any subscription. -/
def chatStateW : UseChat.ChatState :=
  { messages := [msgA], loading := false, error := none, sending := false
    connected := false, channel := none, registrations := [], nextChannelId := 0 }

/-- Claim C3 — confirmed.  Every failing mutation (`uploadTrack`,
`deleteTrack`, `sendMessage`, `uploadWallpaper`, `deleteWallpaper`) leaves
the corresponding mirrored list unchanged while returning a failure result
that carries a reason string; a delete attempted by a principal who owns no
row with the target id fails with the zero-rows rejection of the constrained
`.single()` query, and the track list keeps its previous length. -/
theorem C3_failed_mutations_preserve
    (sM sM₂ sM₃ : UseMusic.MusicState) (sW sW₂ : UseWallpaper.WallpaperState)
    (sC : UseChat.ChatState)
    (uU uD uS uWU uWD : Option String) (uid : String) (isAudio : Bool)
    (content tid tid₂ wid : String)
    (stU stW : OpResult Unit) (dbU : OpResult UseMusic.MusicTrack)
    (dbW : OpResult UseWallpaper.Wallpaper)
    (dbT dbT₂ : List UseMusic.MusicTrack) (dbWl : List UseWallpaper.Wallpaper)
    (srD srW srN sdD sdW sdN : OpResult Unit)
    (sendOut : OpResult UseChat.ChatMessage)
    (r₁ r₂ r₃ r₄ r₅ : String)
    (h₁ : (UseMusic.uploadTrack sM uU isAudio stU dbU).2 = OpResult.fail r₁)
    (h₂ : (UseMusic.deleteTrack sM₂ dbT uD tid srD sdD).2 = OpResult.fail r₂)
    (h₃ : (UseChat.sendMessage sC uS content sendOut).2 = OpResult.fail r₃)
    (h₄ : (UseWallpaper.uploadWallpaper sW uWU stW dbW).2 = OpResult.fail r₄)
    (h₅ : (UseWallpaper.deleteWallpaper sW₂ dbWl uWD wid srW sdW).2 = OpResult.fail r₅)
    (hno : ∀ t ∈ dbT₂, ¬ (t.id = tid₂ ∧ t.uploader_id = uid)) :
    (UseMusic.uploadTrack sM uU isAudio stU dbU).1.tracks = sM.tracks ∧
    (UseMusic.deleteTrack sM₂ dbT uD tid srD sdD).1.tracks = sM₂.tracks ∧
    (UseChat.sendMessage sC uS content sendOut).1.messages = sC.messages ∧
    (UseWallpaper.uploadWallpaper sW uWU stW dbW).1.wallpapers = sW.wallpapers ∧
    (UseWallpaper.deleteWallpaper sW₂ dbWl uWD wid srW sdW).1.wallpapers = sW₂.wallpapers ∧
    (UseMusic.deleteTrack sM₃ dbT₂ (some uid) tid₂ srN sdN).2 =
      OpResult.fail "JSON object requested, multiple (or no) rows returned" ∧
    (UseMusic.deleteTrack sM₃ dbT₂ (some uid) tid₂ srN sdN).1.tracks.length =
      sM₃.tracks.length := by
  refine ⟨uploadTrack_fail_tracks h₁, deleteTrack_fail_tracks h₂,
    sendMessage_messages sC uS content sendOut, uploadWallpaper_fail_wallpapers h₄,
    deleteWallpaper_fail_wallpapers h₅, ?_, ?_⟩ <;>
    simp [UseMusic.deleteTrack, find?_owned_eq_none dbT₂ tid₂ uid hno]

/-- Claim C3 — witness at concrete failing inputs (unauthenticated upload,
delete and send; and a delete whose only id-matching row belongs to another
principal). -/
theorem C3_failed_mutations_preserve_witness :
    (UseMusic.uploadTrack musicStateW none true (OpResult.ok ()) (OpResult.ok trackA)).1.tracks
        = musicStateW.tracks ∧
    (UseMusic.deleteTrack musicStateW [] none "t1" (OpResult.ok ()) (OpResult.ok ())).1.tracks
        = musicStateW.tracks ∧
    (UseChat.sendMessage chatStateW none "hi" (OpResult.ok msgB)).1.messages
        = chatStateW.messages ∧
    (UseWallpaper.uploadWallpaper wallpaperStateW none (OpResult.ok ())
        (OpResult.ok wallA)).1.wallpapers = wallpaperStateW.wallpapers ∧
    (UseWallpaper.deleteWallpaper wallpaperStateW [] none "w1" (OpResult.ok ())
        (OpResult.ok ())).1.wallpapers = wallpaperStateW.wallpapers ∧
    (UseMusic.deleteTrack musicStateW [trackB] (some "u1") "t9" (OpResult.ok ())
        (OpResult.ok ())).2 =
      OpResult.fail "JSON object requested, multiple (or no) rows returned" ∧
    (UseMusic.deleteTrack musicStateW [trackB] (some "u1") "t9" (OpResult.ok ())
        (OpResult.ok ())).1.tracks.length = musicStateW.tracks.length :=
  C3_failed_mutations_preserve musicStateW musicStateW musicStateW wallpaperStateW
    wallpaperStateW chatStateW none none none none none "u1" true "hi" "t1" "t9" "w1"
    (OpResult.ok ()) (OpResult.ok ()) (OpResult.ok trackA) (OpResult.ok wallA)
    [] [trackB] [] (OpResult.ok ()) (OpResult.ok ()) (OpResult.ok ())
    (OpResult.ok ()) (OpResult.ok ()) (OpResult.ok ()) (OpResult.ok msgB)
    "User must be authenticated to upload" "User must be authenticated"
    "User must be authenticated to send messages" "User must be authenticated to upload"
    "User must be authenticated"
    rfl rfl (by decide) rfl rfl (by decide)

/-- Claim C4 — confirmed.  For each of `fetchTracks`, `fetchWallpapers` and
`fetchMessages`: a failing fetch preserves the previously mirrored sequence
unchanged, records the failure reason in the store-local `error` field, and
the transient `loading` flag is false after completion on both the failure
and the success path. -/
theorem C4_failed_fetch_preserves (sM : UseMusic.MusicState)
    (sW : UseWallpaper.WallpaperState) (sC : UseChat.ChatState)
    (r₁ r₂ r₃ : String) (dM : List UseMusic.MusicTrack)
    (dW : List UseWallpaper.Wallpaper) (dC : List UseChat.ChatMessage) :
    (UseMusic.fetchTracks sM (OpResult.fail r₁)).1.tracks = sM.tracks ∧
    (UseMusic.fetchTracks sM (OpResult.fail r₁)).1.error = some r₁ ∧
    (UseMusic.fetchTracks sM (OpResult.fail r₁)).1.loading = false ∧
    (UseMusic.fetchTracks sM (OpResult.ok dM)).1.loading = false ∧
    (UseWallpaper.fetchWallpapers sW (OpResult.fail r₂)).1.wallpapers = sW.wallpapers ∧
    (UseWallpaper.fetchWallpapers sW (OpResult.fail r₂)).1.error = some r₂ ∧
    (UseWallpaper.fetchWallpapers sW (OpResult.fail r₂)).1.loading = false ∧
    (UseWallpaper.fetchWallpapers sW (OpResult.ok dW)).1.loading = false ∧
    (UseChat.fetchMessages sC (OpResult.fail r₃)).1.messages = sC.messages ∧
    (UseChat.fetchMessages sC (OpResult.fail r₃)).1.error = some r₃ ∧
    (UseChat.fetchMessages sC (OpResult.fail r₃)).1.loading = false ∧
    (UseChat.fetchMessages sC (OpResult.ok dC)).1.loading = false :=
  ⟨rfl, rfl, rfl, rfl, rfl, rfl, rfl, rfl, rfl, rfl, rfl, rfl⟩

/-- Claim C2 — witness for the amended theorem at a concrete input. -/
theorem C2_eviction_bound_witness :
    (UseChat.handleChatInsert [msgB] msgA).length = min ([msgB].length + 1) 100 ∧
    ([msgB].length = 100 → UseChat.handleChatInsert [msgB] msgA = [msgB].drop 1 ++ [msgA]) ∧
    (ChatStore.syncMessages 1 [msgB]).length ≤ 1 ∧
    (1 < [msgB].length → ChatStore.syncMessages 1 [msgB] = [msgB].drop ([msgB].length - 1)) ∧
    (([msgA].foldl UseChat.handleChatInsert [msgB]).length ≤ 100) :=
  C2_eviction_bound [msgB] msgA 1 [msgA] (by decide) (by decide)

/-- A concrete user profile. -/
def profA : UserStore.UserProfile :=
  { id := "u1", username := "alice", email := some "alice@example.com", avatar_url := none }

/-- A concrete preference row. -/
def prefA : UserStore.UserPreferences :=
  { user_id := "u1", wallpaper_id := none, music_url := none, volume := 1, theme := none
    auto_play_music := false, show_chat := true }

/-- Claim C5 — counterexample.  `updateProfile` and `updatePreferences` guard
with `throw` BEFORE their `try` blocks, so called without an authenticated
user the exception escapes to the caller instead of a discriminated failure
result. -/
theorem C5_unauthenticated_update_throws_counterexample :
    (UserStore.updateProfile none none (OpResult.ok profA)).2
        = UserStore.CallOutcome.thrown "User not authenticated" ∧
    (UserStore.updatePreferences none none (OpResult.ok prefA)).2
        = UserStore.CallOutcome.thrown "User not authenticated" :=
  ⟨rfl, rfl⟩

/-- Claim C5 — amended.  With an authenticated principal, `updateProfile` and
`updatePreferences` always return a discriminated result (success, or failure
carrying the reason string) and never let an exception escape; without an
authenticated principal both operations throw `User not authenticated` to the
caller instead. -/
theorem C5_result_discipline (uid : String) (prof : Option UserStore.UserProfile)
    (prefs : Option UserStore.UserPreferences) (o₁ : OpResult UserStore.UserProfile)
    (o₂ : OpResult UserStore.UserPreferences) :
    ((∃ p, (UserStore.updateProfile (some uid) prof o₁).2 = UserStore.CallOutcome.ok p) ∨
      (∃ r, (UserStore.updateProfile (some uid) prof o₁).2 = UserStore.CallOutcome.fail r)) ∧
    (∀ e, (UserStore.updateProfile (some uid) prof o₁).2 ≠ UserStore.CallOutcome.thrown e) ∧
    ((∃ p, (UserStore.updatePreferences (some uid) prefs o₂).2 = UserStore.CallOutcome.ok p) ∨
      (∃ r, (UserStore.updatePreferences (some uid) prefs o₂).2
        = UserStore.CallOutcome.fail r)) ∧
    (∀ e, (UserStore.updatePreferences (some uid) prefs o₂).2
      ≠ UserStore.CallOutcome.thrown e) ∧
    (UserStore.updateProfile none prof o₁).2
      = UserStore.CallOutcome.thrown "User not authenticated" ∧
    (UserStore.updatePreferences none prefs o₂).2
      = UserStore.CallOutcome.thrown "User not authenticated" := by
  cases o₁ <;> cases o₂ <;> simp [UserStore.updateProfile, UserStore.updatePreferences]

/-- Claim C5 — witness for the amended theorem at a concrete input. -/
theorem C5_result_discipline_witness :
    ((∃ p, (UserStore.updateProfile (some "u1") none (OpResult.ok profA)).2
        = UserStore.CallOutcome.ok p) ∨
      (∃ r, (UserStore.updateProfile (some "u1") none (OpResult.ok profA)).2
        = UserStore.CallOutcome.fail r)) ∧
    (∀ e, (UserStore.updateProfile (some "u1") none (OpResult.ok profA)).2
      ≠ UserStore.CallOutcome.thrown e) ∧
    ((∃ p, (UserStore.updatePreferences (some "u1") none (OpResult.ok prefA)).2
        = UserStore.CallOutcome.ok p) ∨
      (∃ r, (UserStore.updatePreferences (some "u1") none (OpResult.ok prefA)).2
        = UserStore.CallOutcome.fail r)) ∧
    (∀ e, (UserStore.updatePreferences (some "u1") none (OpResult.ok prefA)).2
      ≠ UserStore.CallOutcome.thrown e) ∧
    (UserStore.updateProfile none none (OpResult.ok profA)).2
      = UserStore.CallOutcome.thrown "User not authenticated" ∧
    (UserStore.updatePreferences none none (OpResult.ok prefA)).2
      = UserStore.CallOutcome.thrown "User not authenticated" :=
  C5_result_discipline "u1" none none (OpResult.ok profA) (OpResult.ok prefA)

section ClampLemmas

open UseMusic

/-- Clamping a non-positive volume gives 0. -/
theorem clamp01_of_nonpos {v : ℚ} (h : v ≤ 0) : clamp01 v = 0 := by
  unfold clamp01
  rw [min_eq_right (h.trans zero_le_one), max_eq_left h]

/-- Clamping a volume at least 1 gives 1. -/
theorem clamp01_of_one_le {v : ℚ} (h : 1 ≤ v) : clamp01 v = 1 := by
  unfold clamp01
  rw [min_eq_left h, max_eq_right zero_le_one]

/-- The clamped volume is never negative. -/
theorem clamp01_nonneg (v : ℚ) : 0 ≤ clamp01 v := le_max_left 0 _

/-- The clamped volume never exceeds 1. -/
theorem clamp01_le_one (v : ℚ) : clamp01 v ≤ 1 :=
  max_le zero_le_one (min_le_left 1 v)

/-- Two volume arguments with the same clamp have the same effect. -/
theorem setVolume_congr (s : MusicState) {x y : ℚ} (h : clamp01 x = clamp01 y) :
    setVolume s x = setVolume s y := by
  unfold setVolume
  rw [h]

end ClampLemmas

/-- Claim C6 — confirmed.  `setVolume` clamps its argument to `[0, 1]`
(`setVolume (-1/2)` acts like `setVolume 0`, `setVolume (17/10)` like
`setVolume 1`, and in general any non-positive argument like 0 and any
argument at least 1 like 1, the stored volume always landing in `[0, 1]`);
`seekTo` clamps to `[0, duration]` (`seekTo (-5)` sets position 0,
`seekTo (duration + 100)` sets position `duration`, and an in-range time is
taken as is), for every nonnegative current duration. -/
theorem C6_clamp_laws (s : UseMusic.MusicState) (a : UseMusic.AudioElement)
    (v t vlo vhi : ℚ)
    (ha : s.audio = some a) (hdur : 0 ≤ s.duration) (hlo : vlo ≤ 0) (hhi : 1 ≤ vhi) :
    UseMusic.setVolume s (-1/2) = UseMusic.setVolume s 0 ∧
    UseMusic.setVolume s (17/10) = UseMusic.setVolume s 1 ∧
    UseMusic.setVolume s vlo = UseMusic.setVolume s 0 ∧
    UseMusic.setVolume s vhi = UseMusic.setVolume s 1 ∧
    0 ≤ (UseMusic.setVolume s v).volume ∧
    (UseMusic.setVolume s v).volume ≤ 1 ∧
    (UseMusic.seekTo s (-5)).audio = some { a with currentTime := 0 } ∧
    (UseMusic.seekTo s (s.duration + 100)).audio
      = some { a with currentTime := s.duration } ∧
    (0 ≤ t → t ≤ s.duration → (UseMusic.seekTo s t).audio = some { a with currentTime := t }) := by
  have hseek : ∀ u : ℚ, UseMusic.seekTo s u
      = { s with audio := some { a with currentTime := max 0 (min s.duration u) } } := by
    intro u
    unfold UseMusic.seekTo
    rw [ha]
  refine ⟨setVolume_congr s ?_, setVolume_congr s ?_, setVolume_congr s ?_,
    setVolume_congr s ?_, clamp01_nonneg v, clamp01_le_one v, ?_, ?_, ?_⟩
  · rw [clamp01_of_nonpos (by norm_num), clamp01_of_nonpos le_rfl]
  · rw [clamp01_of_one_le (by norm_num), clamp01_of_one_le le_rfl]
  · rw [clamp01_of_nonpos hlo, clamp01_of_nonpos le_rfl]
  · rw [clamp01_of_one_le hhi, clamp01_of_one_le le_rfl]
  · rw [hseek]
    have h5 : max 0 (min s.duration (-5)) = 0 :=
      max_eq_left ((min_le_right s.duration (-5)).trans (by norm_num))
    rw [h5]
  · rw [hseek]
    have hplus : max 0 (min s.duration (s.duration + 100)) = s.duration := by
      rw [min_eq_left (by linarith), max_eq_right hdur]
    rw [hplus]
  · intro h₀ h₁
    rw [hseek]
    rw [min_eq_right h₁, max_eq_right h₀]

/-- A concrete audio element currently playing `trackA` at position 5. -/
def audioW : UseMusic.AudioElement :=
  { src := "https://cdn/x/a.mp3", currentTime := 5, volume := 1, paused := false
    muted := false }

/-- A concrete `useMusic` composable state in the middle of playing
`trackA`. -/
def musicPlayingW : UseMusic.MusicState :=
  { tracks := [trackA], currentTrack := some trackA, isPlaying := true, isPaused := false
    volume := 1, currentTime := 5, duration := 60, loading := false, error := none
    uploading := false, audio := some audioW }

/-- Claim C6 — witness at a concrete playing state of duration 60. -/
theorem C6_clamp_laws_witness :
    UseMusic.setVolume musicPlayingW (-1/2) = UseMusic.setVolume musicPlayingW 0 ∧
    UseMusic.setVolume musicPlayingW (17/10) = UseMusic.setVolume musicPlayingW 1 ∧
    UseMusic.setVolume musicPlayingW (-2) = UseMusic.setVolume musicPlayingW 0 ∧
    UseMusic.setVolume musicPlayingW 3 = UseMusic.setVolume musicPlayingW 1 ∧
    0 ≤ (UseMusic.setVolume musicPlayingW 2).volume ∧
    (UseMusic.setVolume musicPlayingW 2).volume ≤ 1 ∧
    (UseMusic.seekTo musicPlayingW (-5)).audio = some { audioW with currentTime := 0 } ∧
    (UseMusic.seekTo musicPlayingW (musicPlayingW.duration + 100)).audio
      = some { audioW with currentTime := musicPlayingW.duration } ∧
    (0 ≤ (7:ℚ) → (7:ℚ) ≤ musicPlayingW.duration →
      (UseMusic.seekTo musicPlayingW 7).audio = some { audioW with currentTime := 7 }) :=
  C6_clamp_laws musicPlayingW audioW 2 7 (-2) 3 rfl (by decide) (by decide) (by decide)

/-- Claim C7 — confirmed.  `playTrack B` while a different track `A` is
current replaces the audio source with `B`'s file URL, makes `B` current and
resets the position to zero (whatever `play()` then does); `playTrack A`
while `A` is already current and playing leaves the position, the current
selection and the audio source unchanged. -/
theorem C7_switch_resets_position (s : UseMusic.MusicState)
    (A B : UseMusic.MusicTrack) (a : UseMusic.AudioElement) (playOk : Bool)
    (hcur : s.currentTrack = some A) (ha : s.audio = some a)
    (hne : A.id ≠ B.id) (hplay : s.isPlaying = true) :
    (UseMusic.playTrack s B playOk).currentTime = 0 ∧
    (UseMusic.playTrack s B playOk).currentTrack = some B ∧
    (UseMusic.playTrack s B playOk).audio.map UseMusic.AudioElement.src
      = some B.file_url ∧
    (UseMusic.playTrack s A playOk).currentTime = s.currentTime ∧
    (UseMusic.playTrack s A playOk).currentTrack = some A ∧
    (UseMusic.playTrack s A playOk).audio.map UseMusic.AudioElement.src = some a.src := by
  cases playOk <;> simp [UseMusic.playTrack, UseMusic.initAudio, hcur, ha, hne]

/-- Claim C7 — witness: switching from the playing `trackA` to `trackB`, and
replaying `trackA` itself, at a concrete state. -/
theorem C7_switch_resets_position_witness :
    (UseMusic.playTrack musicPlayingW trackB true).currentTime = 0 ∧
    (UseMusic.playTrack musicPlayingW trackB true).currentTrack = some trackB ∧
    (UseMusic.playTrack musicPlayingW trackB true).audio.map UseMusic.AudioElement.src
      = some trackB.file_url ∧
    (UseMusic.playTrack musicPlayingW trackA true).currentTime = musicPlayingW.currentTime ∧
    (UseMusic.playTrack musicPlayingW trackA true).currentTrack = some trackA ∧
    (UseMusic.playTrack musicPlayingW trackA true).audio.map UseMusic.AudioElement.src
      = some audioW.src :=
  C7_switch_resets_position musicPlayingW trackA trackB audioW true rfl rfl (by decide) rfl

/-- Claim C8 — confirmed.  `subscribeToChat` is idempotent: while a channel
is active a further call is a no-op, and a double call from any state equals
a single call; starting from the at-most-one-registration invariant, both
subscribe and unsubscribe preserve it and at most one registration is ever
live; `unsubscribeFromChat` is idempotent and safe after teardown. -/
theorem C8_subscription_lifecycle (s t : UseChat.ChatState) (c : Nat)
    (hs : s.channel = some c) (hinv : UseChat.ChannelInv t) :
    UseChat.subscribeToChat s = s ∧
    UseChat.subscribeToChat (UseChat.subscribeToChat t) = UseChat.subscribeToChat t ∧
    UseChat.unsubscribeFromChat (UseChat.unsubscribeFromChat t)
      = UseChat.unsubscribeFromChat t ∧
    UseChat.ChannelInv (UseChat.subscribeToChat t) ∧
    UseChat.ChannelInv (UseChat.unsubscribeFromChat t) ∧
    (UseChat.subscribeToChat t).registrations.length ≤ 1 := by
  refine ⟨?_, ?_, ?_, ?_, ?_, ?_⟩
  · simp [UseChat.subscribeToChat, hs]
  · cases hc : t.channel <;> simp [UseChat.subscribeToChat, hc]
  · cases hc : t.channel <;> simp [UseChat.unsubscribeFromChat, hc]
  · unfold UseChat.ChannelInv at hinv ⊢
    cases hc : t.channel <;> rw [hc] at hinv <;>
      simp_all [UseChat.subscribeToChat, hc]
  · unfold UseChat.ChannelInv at hinv ⊢
    cases hc : t.channel <;> rw [hc] at hinv <;>
      simp_all [UseChat.unsubscribeFromChat, hc]
  · unfold UseChat.ChannelInv at hinv
    cases hc : t.channel <;> rw [hc] at hinv <;>
      simp_all [UseChat.subscribeToChat, hc]

/-- A concrete chat state holding the active channel 0. -/
def chatStateSubscribed : UseChat.ChatState :=
  { chatStateW with channel := some 0, registrations := [0], nextChannelId := 1 }

/-- Claim C8 — witness at concrete states (one subscribed, one fresh). -/
theorem C8_subscription_lifecycle_witness :
    UseChat.subscribeToChat chatStateSubscribed = chatStateSubscribed ∧
    UseChat.subscribeToChat (UseChat.subscribeToChat chatStateW)
      = UseChat.subscribeToChat chatStateW ∧
    UseChat.unsubscribeFromChat (UseChat.unsubscribeFromChat chatStateW)
      = UseChat.unsubscribeFromChat chatStateW ∧
    UseChat.ChannelInv (UseChat.subscribeToChat chatStateW) ∧
    UseChat.ChannelInv (UseChat.unsubscribeFromChat chatStateW) ∧
    (UseChat.subscribeToChat chatStateW).registrations.length ≤ 1 :=
  C8_subscription_lifecycle chatStateSubscribed chatStateW 0 rfl rfl

/-- Claim C9 — confirmed.  Settings persistence round-trips for both stores:
`saveSettings` then `loadSettings` restores the saved `volume`, `playMode`
and `autoPlay` (music) and the saved settings object (chat); and at startup,
with the key absent or the stored string unparseable, loading leaves the
documented defaults (volume 7/10, playMode `single`, autoPlay off; chat
defaults likewise) in place without raising an error. -/
theorem C9_settings_roundtrip (ms : MusicStore.MusicStoreState)
    (cs : ChatStore.ChatStoreState) :
    (MusicStore.loadSettings (MusicStore.saveSettings ms)).volume = ms.volume ∧
    (MusicStore.loadSettings (MusicStore.saveSettings ms)).playMode = ms.playMode ∧
    (MusicStore.loadSettings (MusicStore.saveSettings ms)).autoPlay = ms.autoPlay ∧
    MusicStore.loadSettings MusicStore.initMusicStore = MusicStore.initMusicStore ∧
    MusicStore.initMusicStore.volume = 7/10 ∧
    MusicStore.initMusicStore.playMode = "single" ∧
    MusicStore.initMusicStore.autoPlay = false ∧
    (MusicStore.loadSettings
      { MusicStore.initMusicStore with storedSettings := some .corrupt }).volume = 7/10 ∧
    (MusicStore.loadSettings
      { MusicStore.initMusicStore with storedSettings := some .corrupt }).playMode
        = "single" ∧
    (MusicStore.loadSettings
      { MusicStore.initMusicStore with storedSettings := some .corrupt }).autoPlay = false ∧
    (ChatStore.loadSettings (ChatStore.saveSettings cs)).settings = cs.settings ∧
    ChatStore.loadSettings ChatStore.initChatStore = ChatStore.initChatStore ∧
    ChatStore.initChatStore.settings = ChatStore.defaultChatSettings ∧
    (ChatStore.loadSettings
      { ChatStore.initChatStore with storedSettings := some .corrupt }).settings
        = ChatStore.defaultChatSettings :=
  ⟨rfl, rfl, rfl, rfl, rfl, rfl, rfl, rfl, rfl, rfl, rfl, rfl, rfl, rfl⟩

/-- A concrete music store state in the middle of playing `trackA`, with the
selection persisted. -/
def playingStore : MusicStore.MusicStoreState :=
  { comp := musicPlayingW, currentTrack := some trackA, volume := 1, playMode := "single"
    autoPlay := false, storedSettings := none, storedCurrentTrack := some trackA }

/-- Claim C10 — counterexample.  After the store's `stopTrack` the store-level
selection and the persisted key are indeed cleared, but the composable keeps
its own `currentTrack`, so a subsequent `restartTrack` still has a selected
record to act on: it replays the old track (the player ends up playing with
the audio element unpaused). -/
theorem C10_restart_after_stop_counterexample :
    (MusicStore.stopTrack playingStore).currentTrack = none ∧
    (MusicStore.stopTrack playingStore).storedCurrentTrack = none ∧
    (MusicStore.restartTrack (MusicStore.stopTrack playingStore) true).comp.isPlaying
      = true ∧
    (MusicStore.restartTrack (MusicStore.stopTrack playingStore) true).comp.currentTrack
      = some trackA ∧
    (MusicStore.restartTrack (MusicStore.stopTrack playingStore) true).comp.audio.map
        UseMusic.AudioElement.paused = some false := by
  refine ⟨rfl, rfl, ?_, ?_, ?_⟩ <;> rfl

/-- Claim C10 — amended.  The store's `stopTrack` pauses playback, resets the
position to zero, always clears the store-level `currentTrack` and removes
the persisted `currentTrack` key, and a subsequent `resumeTrack` is a no-op
(`isPaused` is false); but the composable retains its own `currentTrack`, so
a subsequent `restartTrack` still acts on the previously selected record and
replays it. -/
theorem C10_stop_clears_selection (s : MusicStore.MusicStoreState)
    (a : UseMusic.AudioElement) (tr : UseMusic.MusicTrack)
    (ha : s.comp.audio = some a) (ht : s.comp.currentTrack = some tr) :
    (MusicStore.stopTrack s).currentTrack = none ∧
    (MusicStore.stopTrack s).storedCurrentTrack = none ∧
    (MusicStore.stopTrack s).comp.isPlaying = false ∧
    (MusicStore.stopTrack s).comp.isPaused = false ∧
    (MusicStore.stopTrack s).comp.currentTime = 0 ∧
    (MusicStore.stopTrack s).comp.currentTrack = some tr ∧
    MusicStore.resumeTrack (MusicStore.stopTrack s) true = MusicStore.stopTrack s ∧
    (MusicStore.restartTrack (MusicStore.stopTrack s) true).comp.isPlaying = true ∧
    (MusicStore.restartTrack (MusicStore.stopTrack s) true).comp.currentTrack = some tr := by
  have hcomp : UseMusic.stopTrack s.comp
      = { s.comp with
          audio := some { a with paused := true, currentTime := 0 }
          isPlaying := false, isPaused := false, currentTime := 0 } := by
    unfold UseMusic.stopTrack
    rw [ha]
  have hres : UseMusic.resumeTrack (MusicStore.stopTrack s).comp true
      = (MusicStore.stopTrack s).comp := by
    unfold MusicStore.stopTrack
    rw [hcomp]
    unfold UseMusic.resumeTrack
    simp
  refine ⟨rfl, rfl, ?_, ?_, ?_, ?_, ?_, ?_, ?_⟩
  · simp [MusicStore.stopTrack, hcomp]
  · simp [MusicStore.stopTrack, hcomp]
  · simp [MusicStore.stopTrack, hcomp]
  · simp [MusicStore.stopTrack, hcomp, ht]
  · unfold MusicStore.resumeTrack
    rw [hres]
    simp
  · unfold MusicStore.restartTrack
    simp only [MusicStore.stopTrack, hcomp]
    unfold UseMusic.restartTrack
    simp only [ht]
    unfold UseMusic.playTrack UseMusic.initAudio
    simp
  · unfold MusicStore.restartTrack
    simp only [MusicStore.stopTrack, hcomp]
    unfold UseMusic.restartTrack
    simp only [ht]
    unfold UseMusic.playTrack UseMusic.initAudio
    simp

/-- Claim C10 — witness for the amended theorem at the concrete playing
store state. -/
theorem C10_stop_clears_selection_witness :
    (MusicStore.stopTrack playingStore).currentTrack = none ∧
    (MusicStore.stopTrack playingStore).storedCurrentTrack = none ∧
    (MusicStore.stopTrack playingStore).comp.isPlaying = false ∧
    (MusicStore.stopTrack playingStore).comp.isPaused = false ∧
    (MusicStore.stopTrack playingStore).comp.currentTime = 0 ∧
    (MusicStore.stopTrack playingStore).comp.currentTrack = some trackA ∧
    MusicStore.resumeTrack (MusicStore.stopTrack playingStore) true
      = MusicStore.stopTrack playingStore ∧
    (MusicStore.restartTrack (MusicStore.stopTrack playingStore) true).comp.isPlaying
      = true ∧
    (MusicStore.restartTrack (MusicStore.stopTrack playingStore) true).comp.currentTrack
      = some trackA :=
  C10_stop_clears_selection playingStore audioW trackA rfl rfl

end WallpaperLive
